import Mathlib

/-!
Shallow embedding of the repository source file `src/main.ts`
(class `VideoConverter`, method `hlsConvert`).

The embedding models, faithfully to the TypeScript source:
  - the `Quality` record (interface `Quality`, lines 7-15);
  - the built-in 13-entry default quality ladder (lines 90-104);
  - the catalog selection of lines 84-105: the local `quality` array is
    initialised to `[]` and is assigned the default ladder only when
    `qualityArray` is absent or empty; a supplied non-empty `qualityArray`
    is never read again, so the effective catalog is then the empty list;
  - the per-profile field check of lines 108-112, whose
    `return Promise.reject(...)` inside `forEach` builds a rejection and
    drops it (the `forEach` callback return value is ignored), so it never
    affects control flow; the dropped messages are modelled separately by
    `droppedFieldRejections`;
  - the requested-resolution selection and checks of lines 116-127;
  - the per-name match loop of lines 130-137 and the filter of line 142;
  - the empty-selection, input-file-name, source-existence and
    directory-creation steps of lines 144-163;
  - the master playlist rendering of lines 229-234, including the
    JavaScript `parseInt` semantics used for the bandwidth value.

Requested quality names reach the source as JavaScript values that may or
may not be strings (the source checks `typeof res !== 'string'`), so they
are modelled by `JSVal`. Filesystem state is modelled by a lookup function
and the write effects (directory creations) that `hlsConvert` performs
before launching encode jobs are collected in a list, so that statements
about side effects on the validation-error paths can be made.
-/

set_option autoImplicit false

/-- Record of one quality profile, translated from the `Quality` interface
of `src/main.ts` (seven string fields). -/
structure Quality where
  resolution : String
  bitrate : String
  maxrate : String
  bufsize : String
  file : String
  name : String
  segments : String
deriving DecidableEq

/-- JavaScript value appearing in the requested-resolution array: either a
string or some non-string value (the source checks `typeof res !== 'string'`). -/
inductive JSVal where
  | str (s : String)
  | nonStr
deriving DecidableEq

/-- Whether a `JSVal` is a string (models `typeof res === 'string'`). -/
def JSVal.isStr : JSVal → Bool
  | .str _ => true
  | .nonStr => false

/-- The built-in 13-entry default quality ladder of `src/main.ts` lines 90-104,
transcribed verbatim. -/
def defaultQuality : List Quality :=
  [ ⟨"120x68", "100k", "107k", "150k", "120p.m3u8", "120", "120p_%03d.ts"⟩,
    ⟨"160x90", "150k", "160k", "200k", "160p.m3u8", "160", "160p_%03d.ts"⟩,
    ⟨"240x135", "200k", "214k", "300k", "240p.m3u8", "240", "240p_%03d.ts"⟩,
    ⟨"320x180", "350k", "375k", "500k", "180p.m3u8", "180", "180p_%03d.ts"⟩,
    ⟨"426x240", "400k", "428k", "600k", "240p_wide.m3u8", "240w", "240pw_%03d.ts"⟩,
    ⟨"480x270", "500k", "535k", "750k", "270p.m3u8", "270", "270p_%03d.ts"⟩,
    ⟨"640x360", "800k", "856k", "1200k", "360p.m3u8", "360", "360p_%03d.ts"⟩,
    ⟨"854x480", "1400k", "1498k", "2100k", "480p.m3u8", "480", "480p_%03d.ts"⟩,
    ⟨"960x540", "2000k", "2140k", "3000k", "540p.m3u8", "540", "540p_%03d.ts"⟩,
    ⟨"1280x720", "2800k", "2996k", "4200k", "720p.m3u8", "720", "720p_%03d.ts"⟩,
    ⟨"1920x1080", "5000k", "5350k", "7500k", "1080p.m3u8", "1080", "1080p_%03d.ts"⟩,
    ⟨"2560x1440", "8000k", "8560k", "12000k", "1440p.m3u8", "1440", "1440p_%03d.ts"⟩,
    ⟨"3840x2160", "14000k", "14980k", "21000k", "2160p.m3u8", "2160", "2160p_%03d.ts"⟩ ]

/-- Catalog selection of `src/main.ts` lines 84-105: `quality` starts as `[]`
and is assigned the default ladder only when `qualityArray` is absent or
empty. A supplied non-empty `qualityArray` is never read again in the source,
so in that case the effective catalog is the empty list. -/
def effectiveCatalog : Option (List Quality) → List Quality
  | none => defaultQuality
  | some [] => defaultQuality
  | some (_ :: _) => []

/-- The default requested-resolution list of line 116. -/
def defaultResolution : List JSVal :=
  [.str "120", .str "240", .str "360", .str "480", .str "720"]

/-- Requested-resolution selection of lines 116-119: a provided non-empty
array replaces the default list. -/
def chooseResolution : Option (List JSVal) → List JSVal
  | none => defaultResolution
  | some [] => defaultResolution
  | some (v :: vs) => v :: vs

/-- The per-profile required-field check of line 109: every one of the seven
fields must be truthy (a missing or empty field is falsy in JavaScript). -/
def profileFieldsOk (q : Quality) : Bool :=
  !(q.resolution == "" || q.bitrate == "" || q.maxrate == "" || q.bufsize == ""
      || q.file == "" || q.name == "" || q.segments == "")

/-- The rejection message built at line 110. -/
def fieldCheckMsg : String :=
  "Each quality object must have resolution, bitrate, maxrate, bufsize, file, name, and segments properties."

/-- The rejection messages that lines 108-112 build and drop: the
`return Promise.reject(...)` inside `forEach` discards its value, so these
never surface and never stop the call. -/
def droppedFieldRejections (quality : List Quality) : List String :=
  (quality.filter (fun q => !profileFieldsOk q)).map (fun _ => fieldCheckMsg)

/-- Error raised by the validation phase of `hlsConvert`. Each constructor
carries the exact message string of the corresponding `Promise.reject` or
`throw` site in the source. The constructor names record the rejection site;
in the specification taxonomy, `invalidProfile` corresponds to InvalidProfile
(the dropped check of lines 108-112, never raised), `invalidResolutionArray`,
`nonStringElement` and `invalidName` to InvalidRequest, `emptySelection` to
EmptySelection, and `sourceNotFound` to SourceNotFound. -/
inductive ConvError where
  | invalidProfile (msg : String)
  | invalidResolutionArray (msg : String)
  | nonStringElement (msg : String)
  | invalidName (msg : String)
  | emptySelection (msg : String)
  | inputFileRequired (msg : String)
  | sourceNotFound (msg : String)
deriving DecidableEq

/-- The message of the `throw` at line 135, enumerating every catalog name. -/
def invalidNameMsg (res : String) (quality : List Quality) : String :=
  "Invalid resolution name: " ++ res ++ ". It does not match any quality name. Valid names are "
    ++ String.intercalate ", " (quality.map (fun q => q.name)) ++ "."

/-- The per-name match loop of lines 130-137: walk the requested list in
order; a non-string element throws (line 132, unreachable after the check of
lines 125-127), and the first name matching no catalog profile throws the
enumerating error of line 135. Returns the first error, if any. -/
def checkNames (quality : List Quality) : List JSVal → Option ConvError
  | [] => none
  | .nonStr :: _ =>
      some (.invalidName "Invalid resolution name: [non-string]. It should be a string.")
  | .str s :: rest =>
      if quality.any (fun q => q.name == s) then checkNames quality rest
      else some (.invalidName (invalidNameMsg s quality))

/-- Subset resolution, `src/main.ts` lines 121-146: reject an empty
requested array (line 121), reject a non-string element (line 125), run the
per-name match loop (lines 130-137), filter the catalog by requested name
(line 142), and reject an empty selection (line 144). -/
def resolveSubset (quality : List Quality) (resolution : List JSVal) :
    Except ConvError (List Quality) :=
  if resolution.isEmpty then
    .error (.invalidResolutionArray "Invalid resolution array provided. It should be an array of strings.")
  else if resolution.any (fun r => !r.isStr) then
    .error (.nonStringElement "All elements in the resolution array must be strings.")
  else
    match checkNames quality resolution with
    | some e => .error e
    | none =>
        let finalQuality := quality.filter (fun q => resolution.contains (.str q.name))
        if finalQuality.isEmpty then
          .error (.emptySelection "No valid resolutions provided for conversion.")
        else
          .ok finalQuality

/-- Filesystem model: which paths currently exist. -/
structure FS where
  has : String → Bool

/-- Filesystem write effect performed by the setup phase of `hlsConvert`
(directory creations of lines 155-163). -/
inductive FSEffect where
  | mkdir (p : String)
deriving DecidableEq

/-- Model of `path.join` with two components. -/
def pathJoin (a b : String) : String := a ++ "/" ++ b

/-- Arguments of `hlsConvert` that the validation and setup phase reads. -/
structure ConvArgs where
  inputFileName : String
  resolutionArray : Option (List JSVal)
  video_id : Option String
  qualityArray : Option (List Quality)

/-- Validation and setup phase of `hlsConvert` (`src/main.ts` lines 84-163),
up to the point where the per-quality encode jobs are launched. Returns
either the first validation error or the resolved quality list together with
the unique output path, plus the list of directory-creation effects performed
(`genId` stands for the generated `uuidv4()` value used when `video_id` is
absent). The source performs no filesystem write before the existence check
of line 152, which the effect list makes explicit. -/
def hlsSetup (inputFolder outputPath : String) (a : ConvArgs) (fs : FS) (genId : String) :
    Except ConvError (List Quality × String) × List FSEffect :=
  let quality := effectiveCatalog a.qualityArray
  let resolution := chooseResolution a.resolutionArray
  match resolveSubset quality resolution with
  | .error e => (.error e, [])
  | .ok finalQuality =>
      if a.inputFileName == "" then
        (.error (.inputFileRequired "Input file name is required."), [])
      else
        let inputPath := pathJoin inputFolder a.inputFileName
        if fs.has inputPath then
          let eff1 : List FSEffect := if fs.has outputPath then [] else [.mkdir outputPath]
          let uniqueOutputPath := pathJoin outputPath (a.video_id.getD genId)
          let eff2 : List FSEffect := if fs.has uniqueOutputPath then [] else [.mkdir uniqueOutputPath]
          (.ok (finalQuality, uniqueOutputPath), eff1 ++ eff2)
        else
          (.error (.sourceNotFound ("Input file does not exist: " ++ inputPath)), [])

/-- Whether a setup result is the (never raised) InvalidProfile rejection of
lines 108-112. -/
def isInvalidProfile : Except ConvError (List Quality × String) → Bool
  | .error (.invalidProfile _) => true
  | _ => false

/-- JavaScript whitespace characters skipped by `parseInt`. -/
def jsSpace (c : Char) : Bool :=
  c == ' ' || c == '\t' || c == '\n' || c == '\r' || c == '\x0b' || c == '\x0c'

/-- Numeric value of a list of decimal digit characters. -/
def digitsToNat (ds : List Char) : Nat :=
  ds.foldl (fun a c => 10 * a + (c.toNat - 48)) 0

/-- Longest leading run of decimal digits, as a number; `none` when there is
no leading digit (the NaN case of `parseInt`). -/
def digitsPart (cs : List Char) : Option Nat :=
  let ds := cs.takeWhile Char.isDigit
  if ds.isEmpty then none else some (digitsToNat ds)

/-- Core of JavaScript `parseInt` after whitespace stripping: an optional
sign followed by decimal digits; `none` models NaN. The model covers the
decimal radix (the source never passes a radix and the bitrate strings carry
no `0x` prefix). -/
def jsParseIntList (cs : List Char) : Option Int :=
  if cs.head? = some '-' then (digitsPart cs.tail).map (fun n => -(n : Int))
  else if cs.head? = some '+' then (digitsPart cs.tail).map (fun n => (n : Int))
  else (digitsPart cs).map (fun n => (n : Int))

/-- JavaScript `parseInt(s)` for the decimal radix: skip leading whitespace,
accept an optional sign, read leading decimal digits; `none` models NaN. -/
def jsParseInt (s : String) : Option Int :=
  jsParseIntList (s.toList.dropWhile jsSpace)

/-- JavaScript stringification of the (possibly NaN) bandwidth number. -/
def jsNumToString : Option Int → String
  | none => "NaN"
  | some n => toString n

/-- One entry of the master playlist, `src/main.ts` lines 230-231: the
stream-info line with `BANDWIDTH=parseInt(bitrate)*1000` and the resolution,
then the manifest filename on the next line. -/
def masterPlaylistEntry (q : Quality) : String :=
  "#EXT-X-STREAM-INF:BANDWIDTH=" ++ jsNumToString ((jsParseInt q.bitrate).map (fun n => n * 1000))
    ++ ",RESOLUTION=" ++ q.resolution ++ "\n" ++ q.file

/-- The master playlist content written at line 234: the header of line 233
followed by the entries of lines 230-232 joined by newlines. -/
def masterPlaylistContent (finalQuality : List Quality) : String :=
  "#EXTM3U\n" ++ String.intercalate "\n" (finalQuality.map masterPlaylistEntry)

/-- Whether a string begins with a decimal digit. -/
def beginsWithDigit (s : String) : Bool :=
  match s.toList with
  | [] => false
  | c :: _ => c.isDigit

/-- Whether the pattern occurs at the start of the text. -/
def leadsWith : List Char → List Char → Bool
  | [], _ => true
  | _ :: _, [] => false
  | p :: ps, c :: cs => p == c && leadsWith ps cs

/-- Whether the pattern occurs anywhere in the text. -/
def occursAt : List Char → List Char → Bool
  | pat, [] => leadsWith pat []
  | pat, c :: cs => leadsWith pat (c :: cs) || occursAt pat cs

/-- Whether `pat` occurs as a contiguous substring of `s`. -/
def strOccurs (pat s : String) : Bool := occursAt pat.toList s.toList

/-- First requested name (in a list of strings) matching no catalog profile,
the name whose error the loop of lines 130-137 throws. -/
def firstUnmatched (quality : List Quality) : List String → Option String
  | [] => none
  | s :: rest =>
      if quality.any (fun q => q.name == s) then firstUnmatched quality rest
      else some s

/-! ### Helper lemmas about the subset-resolution pipeline -/

lemma anyNotStr_map_str (names : List String) :
    (names.map JSVal.str).any (fun r => !r.isStr) = false := by
  induction names with
  | nil => rfl
  | cons n ns ih => simp [JSVal.isStr, ih]

lemma checkNames_map_str (quality : List Quality) (names : List String) :
    checkNames quality (names.map JSVal.str) =
      (firstUnmatched quality names).map (fun r => ConvError.invalidName (invalidNameMsg r quality)) := by
  induction names with
  | nil => rfl
  | cons n ns ih =>
      by_cases h : quality.any (fun q => q.name == n)
      · simp only [List.map_cons, checkNames, firstUnmatched, h, if_true, ih]
      · simp [checkNames, firstUnmatched, h]

lemma firstUnmatched_none_of_matched (quality : List Quality) (names : List String)
    (h : ∀ r ∈ names, ∃ q ∈ quality, q.name = r) :
    firstUnmatched quality names = none := by
  induction names with
  | nil => rfl
  | cons n ns ih =>
      have hn : quality.any (fun q => q.name == n) = true := by
        obtain ⟨q, hq, he⟩ := h n (by simp)
        exact List.any_eq_true.mpr ⟨q, hq, by simp [he]⟩
      simp only [firstUnmatched, hn, if_true]
      exact ih fun r hr => h r (by simp [hr])

lemma firstUnmatched_some_not_matched (quality : List Quality) (names : List String)
    (r : String) (h : firstUnmatched quality names = some r) :
    quality.any (fun q => q.name == r) = false := by
  induction names with
  | nil => simp [firstUnmatched] at h
  | cons n ns ih =>
      by_cases hn : quality.any (fun q => q.name == n)
      · exact ih (by simpa [firstUnmatched, hn] using h)
      · have : n = r := by simpa [firstUnmatched, hn] using h
        subst this
        exact Bool.eq_false_iff.mpr hn

lemma map_str_isEmpty_false (names : List String) (hne : names ≠ []) :
    (names.map JSVal.str).isEmpty = false := by
  cases names with
  | nil => exact absurd rfl hne
  | cons n ns => simp

lemma resolveSubset_map_str_of_unmatched (quality : List Quality) (names : List String)
    (r : String) (h : firstUnmatched quality names = some r) :
    resolveSubset quality (names.map JSVal.str) =
      .error (.invalidName (invalidNameMsg r quality)) := by
  have hne : names ≠ [] := by
    rintro rfl
    simp [firstUnmatched] at h
  simp only [resolveSubset, map_str_isEmpty_false names hne, anyNotStr_map_str,
    checkNames_map_str, h, Option.map_some', Bool.false_eq_true, if_false]

lemma contains_map_str (names : List String) (s : String) :
    (names.map JSVal.str).contains (JSVal.str s) = names.contains s := by
  induction names with
  | nil => rfl
  | cons n ns ih => simp [List.contains_cons, ih]

lemma resolveSubset_map_str_of_matched (quality : List Quality) (names : List String)
    (hne : names ≠ [])
    (hall : ∀ r ∈ names, ∃ q ∈ quality, q.name = r) :
    resolveSubset quality (names.map JSVal.str) =
      .ok (quality.filter (fun q => names.contains q.name)) := by
  have h0 : firstUnmatched quality names = none := firstUnmatched_none_of_matched quality names hall
  have hfilter : quality.filter (fun q => (names.map JSVal.str).contains (JSVal.str q.name)) =
      quality.filter (fun q => names.contains q.name) := by
    apply List.filter_congr
    intro q _
    exact contains_map_str names q.name
  have hnonempty :
      (quality.filter (fun q => (names.map JSVal.str).contains (JSVal.str q.name))).isEmpty = false := by
    cases names with
    | nil => exact absurd rfl hne
    | cons n ns =>
        obtain ⟨q, hq, he⟩ := hall n (by simp)
        rw [List.isEmpty_eq_false]
        intro hnil
        have : q ∈ quality.filter (fun q => ((n :: ns).map JSVal.str).contains (JSVal.str q.name)) := by
          rw [List.mem_filter]
          refine ⟨hq, ?_⟩
          simp [List.contains_cons, he]
        rw [hnil] at this
        exact absurd this (List.not_mem_nil q)
  have hnonempty2 : (quality.filter (fun q => names.contains q.name)).isEmpty = false :=
    hfilter ▸ hnonempty
  unfold resolveSubset
  rw [map_str_isEmpty_false names hne, anyNotStr_map_str, checkNames_map_str, h0]
  simp only [hfilter, Option.map_none', Bool.false_eq_true, if_false, hnonempty2]

lemma checkNames_none_all_str (quality : List Quality) (resolution : List JSVal)
    (h : checkNames quality resolution = none) :
    resolution.any (fun r => !r.isStr) = false := by
  induction resolution with
  | nil => rfl
  | cons v vs ih =>
      cases v with
      | nonStr => simp [checkNames] at h
      | str s =>
          by_cases hs : quality.any (fun q => q.name == s)
          · have := ih (by simpa [checkNames, hs] using h)
            simpa [JSVal.isStr] using this
          · simp [checkNames, hs] at h

lemma hlsSetup_effects_empty_or_ok (inputFolder outputPath : String) (a : ConvArgs)
    (fs : FS) (genId : String) :
    (∃ v, (hlsSetup inputFolder outputPath a fs genId).1 = .ok v) ∨
      (hlsSetup inputFolder outputPath a fs genId).2 = [] := by
  simp only [hlsSetup]
  split
  · simp
  · split
    · simp
    · split
      · exact Or.inl ⟨_, rfl⟩
      · simp

lemma hlsSetup_error_no_effects (inputFolder outputPath : String) (a : ConvArgs)
    (fs : FS) (genId : String) (e : ConvError)
    (h : (hlsSetup inputFolder outputPath a fs genId).1 = .error e) :
    (hlsSetup inputFolder outputPath a fs genId).2 = [] := by
  rcases hlsSetup_effects_empty_or_ok inputFolder outputPath a fs genId with ⟨v, hv⟩ | h2
  · rw [hv] at h
    exact absurd h (by simp)
  · exact h2

/-! ### Claim C1 -/

/-- The single-entry custom catalog of the Custom Qualities example in
`src/README.md`. -/
def readmeCustomCatalog : List Quality :=
  [⟨"640x360", "800k", "856k", "1200k", "360p.m3u8", "360", "360p_%03d.ts"⟩]

/-- C1, code bug: the claim states that a supplied non-empty custom catalog
replaces the built-in ladder and its profiles are used for encoding. In the
source, the local `quality` array is never assigned from `qualityArray`
(lines 84-105), so with a supplied catalog the effective catalog is empty and
the call of the README Custom Qualities example (names `["360"]` against that
one-profile catalog) rejects with the name-match error whose list of valid
names is empty, instead of encoding with the supplied profile. -/
theorem c1_supplied_catalog_ignored :
    effectiveCatalog (some readmeCustomCatalog) = []
    ∧ (hlsSetup "video" "output"
          ⟨"input.mp4", some [.str "360"], none, some readmeCustomCatalog⟩
          ⟨fun _ => true⟩ "id").1
        = .error (.invalidName (invalidNameMsg "360" []))
    ∧ invalidNameMsg "360" [] =
        "Invalid resolution name: 360. It does not match any quality name. Valid names are ." :=
  ⟨rfl, rfl, rfl⟩

/-! ### Claim C2 -/

/-- Catalog whose single profile is missing the `bitrate` field (falsy). -/
def badCatalogMissingField : List Quality :=
  [⟨"640x360", "", "856k", "1200k", "360p.m3u8", "360", "360p_%03d.ts"⟩]

/-- Catalog with two profiles sharing the name `360`. -/
def badCatalogDuplicateName : List Quality :=
  [⟨"640x360", "800k", "856k", "1200k", "360p.m3u8", "360", "360p_%03d.ts"⟩,
   ⟨"1280x720", "2800k", "2996k", "4200k", "720p.m3u8", "360", "720p_%03d.ts"⟩]

/-- C2, code bug: the claim states that a catalog with a missing required
field or a duplicate name makes the call reject with the InvalidProfile
error. In the source the field check of lines 108-112 builds its rejection
inside `forEach` and drops it, there is no duplicate-name check at all, and a
supplied catalog is not even the array the check walks (lines 84-105 leave
`quality` empty). Evaluated on a catalog missing `bitrate` and on a catalog
with a duplicated name, the call rejects with the name-match error instead,
and the InvalidProfile rejection is never the result; the dropped messages
the field check builds on the bad catalog are also exhibited. -/
theorem c2_invalid_profile_never_raised :
    profileFieldsOk ⟨"640x360", "", "856k", "1200k", "360p.m3u8", "360", "360p_%03d.ts"⟩ = false
    ∧ droppedFieldRejections badCatalogMissingField = [fieldCheckMsg]
    ∧ (hlsSetup "video" "output"
          ⟨"input.mp4", some [.str "360"], none, some badCatalogMissingField⟩
          ⟨fun _ => true⟩ "id").1
        = .error (.invalidName (invalidNameMsg "360" []))
    ∧ isInvalidProfile (hlsSetup "video" "output"
          ⟨"input.mp4", some [.str "360"], none, some badCatalogMissingField⟩
          ⟨fun _ => true⟩ "id").1 = false
    ∧ (hlsSetup "video" "output"
          ⟨"input.mp4", some [.str "360"], none, some badCatalogDuplicateName⟩
          ⟨fun _ => true⟩ "id").1
        = .error (.invalidName (invalidNameMsg "360" []))
    ∧ isInvalidProfile (hlsSetup "video" "output"
          ⟨"input.mp4", some [.str "360"], none, some badCatalogDuplicateName⟩
          ⟨fun _ => true⟩ "id").1 = false :=
  ⟨rfl, rfl, rfl, rfl, rfl, rfl⟩

/-! ### Claim C3 -/

/-- C3 counterexample: on a call whose `inputFileName` is empty and whose
requested name `999` matches no catalog name, the source reports the
name-match (subset-resolution) error of line 135, not the empty-file-name
rejection of line 148 that the claimed validation order would produce. -/
theorem c3_counterexample :
    (hlsSetup "video" "output" ⟨"", some [.str "999"], none, none⟩ ⟨fun _ => true⟩ "id").1
      = .error (.invalidName (invalidNameMsg "999" defaultQuality))
    ∧ (hlsSetup "video" "output" ⟨"", some [.str "999"], none, none⟩ ⟨fun _ => true⟩ "id").1
      ≠ .error (.inputFileRequired "Input file name is required.") := by
  have h1 : (hlsSetup "video" "output" ⟨"", some [.str "999"], none, none⟩ ⟨fun _ => true⟩ "id").1
      = .error (.invalidName (invalidNameMsg "999" defaultQuality)) := rfl
  refine ⟨h1, ?_⟩
  rw [h1]
  simp [invalidNameMsg]

/-- C3 (amended): the source validates in the order catalog validity (a
no-op), then subset resolution (requested-array shape, per-name match,
empty selection), then `sourceFileName` non-empty, then source existence,
then output-directory preparation; the first violation wins, so for every
input whose `inputFileName` is empty and whose requested names contain one
matching no catalog name, the reported failure is the subset-resolution
(name-match) error, not the empty-file-name rejection. -/
theorem c3_amended_resolution_error_wins
    (inputFolder outputPath : String) (a : ConvArgs) (fs : FS) (genId : String)
    (names : List String) (r : String)
    (hempty : a.inputFileName = "")
    (hres : a.resolutionArray = some (names.map JSVal.str))
    (hbad : firstUnmatched (effectiveCatalog a.qualityArray) names = some r) :
    (hlsSetup inputFolder outputPath a fs genId).1 =
      .error (.invalidName (invalidNameMsg r (effectiveCatalog a.qualityArray))) := by
  have hne : names ≠ [] := by
    rintro rfl
    simp [firstUnmatched] at hbad
  have hchoose : chooseResolution a.resolutionArray = names.map JSVal.str := by
    rw [hres]
    cases names with
    | nil => exact absurd rfl hne
    | cons n ns => rfl
  simp only [hlsSetup]
  rw [hchoose, resolveSubset_map_str_of_unmatched _ names r hbad]

/-- Witness for C3 (amended) at a concrete input: empty file name, requested
name `999` unmatched in the default catalog. -/
theorem c3_amended_witness :
    firstUnmatched (effectiveCatalog (⟨"", some (["999"].map JSVal.str), none, none⟩ : ConvArgs).qualityArray) ["999"] = some "999"
    ∧ (hlsSetup "video" "output" ⟨"", some (["999"].map JSVal.str), none, none⟩ ⟨fun _ => false⟩ "gen").1
        = .error (.invalidName (invalidNameMsg "999"
            (effectiveCatalog (⟨"", some (["999"].map JSVal.str), none, none⟩ : ConvArgs).qualityArray))) :=
  ⟨rfl, c3_amended_resolution_error_wins "video" "output"
      ⟨"", some (["999"].map JSVal.str), none, none⟩ ⟨fun _ => false⟩ "gen" ["999"] "999" rfl rfl rfl⟩

/-! ### Claim C8 -/

/-- C8: when the requested quality names are absent or empty, subset
resolution against the default catalog returns exactly the five profiles
named 120, 240, 360, 480 and 720, in catalog order. -/
theorem c8_default_subset (ra : Option (List JSVal)) (h : ra = none ∨ ra = some []) :
    resolveSubset (effectiveCatalog none) (chooseResolution ra) =
      .ok [ ⟨"120x68", "100k", "107k", "150k", "120p.m3u8", "120", "120p_%03d.ts"⟩,
            ⟨"240x135", "200k", "214k", "300k", "240p.m3u8", "240", "240p_%03d.ts"⟩,
            ⟨"640x360", "800k", "856k", "1200k", "360p.m3u8", "360", "360p_%03d.ts"⟩,
            ⟨"854x480", "1400k", "1498k", "2100k", "480p.m3u8", "480", "480p_%03d.ts"⟩,
            ⟨"1280x720", "2800k", "2996k", "4200k", "720p.m3u8", "720", "720p_%03d.ts"⟩ ] := by
  rcases h with rfl | rfl
  · rfl
  · rfl

/-- Witness for C8 with the requested names absent. -/
theorem c8_default_subset_witness :
    ((none : Option (List JSVal)) = none ∨ (none : Option (List JSVal)) = some [])
    ∧ resolveSubset (effectiveCatalog none) (chooseResolution none) =
        .ok [ ⟨"120x68", "100k", "107k", "150k", "120p.m3u8", "120", "120p_%03d.ts"⟩,
              ⟨"240x135", "200k", "214k", "300k", "240p.m3u8", "240", "240p_%03d.ts"⟩,
              ⟨"640x360", "800k", "856k", "1200k", "360p.m3u8", "360", "360p_%03d.ts"⟩,
              ⟨"854x480", "1400k", "1498k", "2100k", "480p.m3u8", "480", "480p_%03d.ts"⟩,
              ⟨"1280x720", "2800k", "2996k", "4200k", "720p.m3u8", "720", "720p_%03d.ts"⟩ ] :=
  ⟨Or.inl rfl, c8_default_subset none (Or.inl rfl)⟩

/-! ### Claim C4 -/

/-- C4: for every catalog and every non-empty requested-name list whose
every element matches some catalog name, subset resolution returns exactly
the profiles whose name was requested, in catalog order (the result is a
sublist of the catalog, i.e. ordered by catalog position, not request
order), with each profile occurring no more often than in the catalog, so at
most once when catalog names are unique, even if the request has duplicates. -/
theorem c4_resolve_matched_names
    (quality : List Quality) (names : List String)
    (hne : names ≠ [])
    (hall : ∀ r ∈ names, ∃ q ∈ quality, q.name = r) :
    ∃ fq, resolveSubset quality (names.map JSVal.str) = .ok fq
      ∧ fq = quality.filter (fun q => names.contains q.name)
      ∧ fq.Sublist quality
      ∧ (∀ q, q ∈ fq ↔ q ∈ quality ∧ q.name ∈ names)
      ∧ (∀ q, fq.count q ≤ quality.count q)
      ∧ (quality.Pairwise (fun q1 q2 => q1.name ≠ q2.name) →
          fq.Pairwise (fun q1 q2 => q1.name ≠ q2.name)) := by
  refine ⟨quality.filter (fun q => names.contains q.name),
    resolveSubset_map_str_of_matched quality names hne hall, rfl,
    List.filter_sublist quality, ?_, ?_, ?_⟩
  · intro q
    simp [List.mem_filter]
  · intro q
    exact (List.filter_sublist quality).count_le q
  · intro hp
    exact hp.sublist (List.filter_sublist quality)

/-- Witness for C4: requested names 720 and 360 (request order reversed with
respect to the catalog) against the default catalog. -/
theorem c4_resolve_matched_names_witness :
    (["720", "360"] ≠ ([] : List String))
    ∧ (∀ r ∈ ["720", "360"], ∃ q ∈ defaultQuality, q.name = r)
    ∧ (∃ fq, resolveSubset defaultQuality (["720", "360"].map JSVal.str) = .ok fq
        ∧ fq = defaultQuality.filter (fun q => ["720", "360"].contains q.name)
        ∧ fq.Sublist defaultQuality
        ∧ (∀ q, q ∈ fq ↔ q ∈ defaultQuality ∧ q.name ∈ ["720", "360"])
        ∧ (∀ q, fq.count q ≤ defaultQuality.count q)
        ∧ (defaultQuality.Pairwise (fun q1 q2 => q1.name ≠ q2.name) →
            fq.Pairwise (fun q1 q2 => q1.name ≠ q2.name))) :=
  ⟨by decide, by decide, c4_resolve_matched_names defaultQuality ["720", "360"] (by decide) (by decide)⟩

/-! ### Claim C6 -/

/-- C6: a non-empty requested list containing a name matching no catalog
profile fails with the name-match (InvalidRequest) error whose message
contains the comma-separated enumeration of all valid catalog names, and the
offending name indeed matches no profile; a non-empty requested list
containing a non-string element fails with the all-elements-must-be-strings
(InvalidRequest) rejection. -/
theorem c6_invalid_request_errors
    (quality : List Quality) (names : List String) (r : String) (resolution : List JSVal)
    (hbad : firstUnmatched quality names = some r)
    (hne : resolution ≠ [])
    (hnonstr : resolution.any (fun v => !v.isStr) = true) :
    resolveSubset quality (names.map JSVal.str) = .error (.invalidName (invalidNameMsg r quality))
    ∧ quality.any (fun q => q.name == r) = false
    ∧ (∃ pre post, invalidNameMsg r quality =
        pre ++ String.intercalate ", " (quality.map (fun q => q.name)) ++ post)
    ∧ resolveSubset quality resolution =
        .error (.nonStringElement "All elements in the resolution array must be strings.") := by
  refine ⟨resolveSubset_map_str_of_unmatched quality names r hbad,
    firstUnmatched_some_not_matched quality names r hbad,
    ⟨"Invalid resolution name: " ++ r ++ ". It does not match any quality name. Valid names are ",
      ".", rfl⟩, ?_⟩
  unfold resolveSubset
  rw [List.isEmpty_eq_false.mpr hne, hnonstr]
  simp

/-- Witness for C6: unknown name 999 against the default catalog, and a
requested list holding one non-string element. -/
theorem c6_invalid_request_errors_witness :
    firstUnmatched defaultQuality ["999"] = some "999"
    ∧ ([JSVal.nonStr] ≠ ([] : List JSVal))
    ∧ ([JSVal.nonStr].any (fun v => !v.isStr) = true)
    ∧ (resolveSubset defaultQuality (["999"].map JSVal.str)
          = .error (.invalidName (invalidNameMsg "999" defaultQuality))
      ∧ defaultQuality.any (fun q => q.name == "999") = false
      ∧ (∃ pre post, invalidNameMsg "999" defaultQuality =
          pre ++ String.intercalate ", " (defaultQuality.map (fun q => q.name)) ++ post)
      ∧ resolveSubset defaultQuality [JSVal.nonStr] =
          .error (.nonStringElement "All elements in the resolution array must be strings.")) :=
  ⟨rfl, by decide, rfl,
    c6_invalid_request_errors defaultQuality ["999"] "999" [JSVal.nonStr] rfl (by decide) rfl⟩

/-! ### Claim C9 -/

lemma checkNames_no_emptySelection (quality : List Quality) (resolution : List JSVal)
    (msg : String) : checkNames quality resolution ≠ some (.emptySelection msg) := by
  induction resolution with
  | nil => simp [checkNames]
  | cons v vs ih =>
      cases v with
      | nonStr => simp [checkNames]
      | str s =>
          by_cases hs : quality.any (fun q => q.name == s)
          · simpa [checkNames, hs] using ih
          · simp [checkNames, hs]

lemma filter_ne_nil_of_checkNames_none (quality : List Quality) (resolution : List JSVal)
    (hne : resolution ≠ []) (hc : checkNames quality resolution = none) :
    quality.filter (fun q => resolution.contains (.str q.name)) ≠ [] := by
  cases resolution with
  | nil => exact absurd rfl hne
  | cons v vs =>
      cases v with
      | nonStr => simp [checkNames] at hc
      | str s =>
          by_cases hs : quality.any (fun q => q.name == s)
          · obtain ⟨q, hq, hqs⟩ := List.any_eq_true.mp hs
            have hqs' : q.name = s := by simpa using hqs
            intro hnil
            have hmem : q ∈ quality.filter (fun q => (JSVal.str s :: vs).contains (.str q.name)) := by
              rw [List.mem_filter]
              exact ⟨hq, by simp [List.contains_cons, hqs']⟩
            rw [hnil] at hmem
            exact absurd hmem (List.not_mem_nil q)
          · simp [checkNames, hs] at hc

lemma resolveSubset_ne_emptySelection (quality : List Quality) (resolution : List JSVal)
    (hne : resolution ≠ []) :
    resolveSubset quality resolution
      ≠ .error (.emptySelection "No valid resolutions provided for conversion.") := by
  intro h
  unfold resolveSubset at h
  rw [List.isEmpty_eq_false.mpr hne] at h
  by_cases hany : resolution.any (fun r => !r.isStr)
  · simp [hany] at h
  · rw [Bool.eq_false_iff.mpr hany] at h
    cases hc : checkNames quality resolution with
    | some e =>
        rw [hc] at h
        simp only [Bool.false_eq_true, if_false] at h
        have he : e = .emptySelection "No valid resolutions provided for conversion." := by
          simpa using h
        rw [he] at hc
        exact checkNames_no_emptySelection quality resolution _ hc
    | none =>
        rw [hc] at h
        simp only [Bool.false_eq_true, if_false] at h
        by_cases hfe : (quality.filter (fun q => resolution.contains (.str q.name))).isEmpty
        · exact filter_ne_nil_of_checkNames_none quality resolution hne hc
            (List.isEmpty_eq_true.mp hfe)
        · rw [Bool.eq_false_iff.mpr hfe] at h
          simp at h

/-- C9: with the non-empty requested list that `hlsConvert` always provides,
subset resolution yields the EmptySelection rejection exactly when the
per-name loop passed and the filtered catalog is empty; that combination is
impossible, so the branch is reachable only for an empty catalog (vacuously),
and under the precondition that the catalog is non-empty and every requested
name passed the per-name check, the EmptySelection branch is unreachable. -/
theorem c9_empty_selection_branch
    (quality : List Quality) (resolution : List JSVal) (hne : resolution ≠ []) :
    (resolveSubset quality resolution
        = .error (.emptySelection "No valid resolutions provided for conversion.")
      ↔ checkNames quality resolution = none
          ∧ quality.filter (fun q => resolution.contains (.str q.name)) = [])
    ∧ (resolveSubset quality resolution
        = .error (.emptySelection "No valid resolutions provided for conversion.") → quality = [])
    ∧ (quality ≠ [] → checkNames quality resolution = none →
        resolveSubset quality resolution
          ≠ .error (.emptySelection "No valid resolutions provided for conversion.")) := by
  refine ⟨⟨fun h => absurd h (resolveSubset_ne_emptySelection quality resolution hne), ?_⟩,
    fun h => absurd h (resolveSubset_ne_emptySelection quality resolution hne),
    fun _ _ => resolveSubset_ne_emptySelection quality resolution hne⟩
  rintro ⟨hc, hf⟩
  exact absurd hf (filter_ne_nil_of_checkNames_none quality resolution hne hc)

/-- Witness for C9 at the concrete requested list holding only the name 360
against the default catalog. -/
theorem c9_empty_selection_branch_witness :
    ([JSVal.str "360"] ≠ ([] : List JSVal))
    ∧ ((resolveSubset defaultQuality [JSVal.str "360"]
          = .error (.emptySelection "No valid resolutions provided for conversion.")
        ↔ checkNames defaultQuality [JSVal.str "360"] = none
            ∧ defaultQuality.filter (fun q => [JSVal.str "360"].contains (.str q.name)) = [])
      ∧ (resolveSubset defaultQuality [JSVal.str "360"]
          = .error (.emptySelection "No valid resolutions provided for conversion.")
            → defaultQuality = [])
      ∧ (defaultQuality ≠ [] → checkNames defaultQuality [JSVal.str "360"] = none →
          resolveSubset defaultQuality [JSVal.str "360"]
            ≠ .error (.emptySelection "No valid resolutions provided for conversion."))) :=
  ⟨by decide, c9_empty_selection_branch defaultQuality [JSVal.str "360"] (by decide)⟩

/-! ### Claim C7 -/

/-- C7: when every earlier validation passes and the source file does not
exist at `inputFolder/inputFileName`, the call fails with the
file-does-not-exist (SourceNotFound) rejection and performs no directory
creation or other filesystem write; moreover every validation-error outcome
of the setup phase, for any filesystem state, performs no filesystem write. -/
theorem c7_source_not_found_no_side_effects
    (inputFolder outputPath : String) (a : ConvArgs) (fs : FS) (genId : String)
    (fq : List Quality)
    (hres : resolveSubset (effectiveCatalog a.qualityArray) (chooseResolution a.resolutionArray)
        = .ok fq)
    (hname : a.inputFileName ≠ "")
    (hmiss : fs.has (pathJoin inputFolder a.inputFileName) = false) :
    (hlsSetup inputFolder outputPath a fs genId).1 =
      .error (.sourceNotFound ("Input file does not exist: " ++ pathJoin inputFolder a.inputFileName))
    ∧ (hlsSetup inputFolder outputPath a fs genId).2 = []
    ∧ (∀ (fs2 : FS) (e : ConvError),
        (hlsSetup inputFolder outputPath a fs2 genId).1 = .error e →
        (hlsSetup inputFolder outputPath a fs2 genId).2 = []) := by
  have h1 : (hlsSetup inputFolder outputPath a fs genId).1 =
      .error (.sourceNotFound ("Input file does not exist: " ++ pathJoin inputFolder a.inputFileName)) := by
    simp only [hlsSetup]
    rw [hres, beq_eq_false_iff_ne.mpr hname, hmiss]
    simp
  exact ⟨h1, hlsSetup_error_no_effects inputFolder outputPath a fs genId _ h1,
    fun fs2 e he => hlsSetup_error_no_effects inputFolder outputPath a fs2 genId e he⟩

/-- Witness for C7: default catalog and names, file `input.mp4`, a filesystem
on which no path exists. -/
theorem c7_source_not_found_no_side_effects_witness :
    resolveSubset (effectiveCatalog (⟨"input.mp4", none, none, none⟩ : ConvArgs).qualityArray)
        (chooseResolution (⟨"input.mp4", none, none, none⟩ : ConvArgs).resolutionArray)
      = .ok [ ⟨"120x68", "100k", "107k", "150k", "120p.m3u8", "120", "120p_%03d.ts"⟩,
              ⟨"240x135", "200k", "214k", "300k", "240p.m3u8", "240", "240p_%03d.ts"⟩,
              ⟨"640x360", "800k", "856k", "1200k", "360p.m3u8", "360", "360p_%03d.ts"⟩,
              ⟨"854x480", "1400k", "1498k", "2100k", "480p.m3u8", "480", "480p_%03d.ts"⟩,
              ⟨"1280x720", "2800k", "2996k", "4200k", "720p.m3u8", "720", "720p_%03d.ts"⟩ ]
    ∧ (FS.mk (fun _ => false)).has (pathJoin "video" "input.mp4") = false
    ∧ ((hlsSetup "video" "output" ⟨"input.mp4", none, none, none⟩ ⟨fun _ => false⟩ "id").1 =
        .error (.sourceNotFound ("Input file does not exist: " ++ pathJoin "video" "input.mp4"))
      ∧ (hlsSetup "video" "output" ⟨"input.mp4", none, none, none⟩ ⟨fun _ => false⟩ "id").2 = []
      ∧ (∀ (fs2 : FS) (e : ConvError),
          (hlsSetup "video" "output" ⟨"input.mp4", none, none, none⟩ fs2 "id").1 = .error e →
          (hlsSetup "video" "output" ⟨"input.mp4", none, none, none⟩ fs2 "id").2 = [])) :=
  ⟨rfl, rfl,
    c7_source_not_found_no_side_effects "video" "output" ⟨"input.mp4", none, none, none⟩
      ⟨fun _ => false⟩ "id" _ rfl (by decide) rfl⟩

/-! ### Claim C5 -/

/-- C5: for every resolved quality list whose bitrates parse to a number,
the master playlist is exactly the header line, then, per quality in order,
the stream-info line whose bandwidth is the parsed bitrate value scaled by
1000 and whose resolution is the profile resolution, followed by the quality
manifest filename on the next line; the kilobit bitrate `800k` parses to 800,
so it renders as bandwidth 800000. -/
theorem c5_master_manifest_format
    (qs : List Quality) (f : Quality → Int)
    (h : ∀ q ∈ qs, jsParseInt q.bitrate = some (f q)) :
    masterPlaylistContent qs =
      "#EXTM3U\n" ++ String.intercalate "\n" (qs.map (fun q =>
        "#EXT-X-STREAM-INF:BANDWIDTH=" ++ toString (f q * 1000)
          ++ ",RESOLUTION=" ++ q.resolution ++ "\n" ++ q.file))
    ∧ jsParseInt "800k" = some 800 := by
  constructor
  · unfold masterPlaylistContent
    congr 1
    congr 1
    apply List.map_congr_left
    intro q hq
    unfold masterPlaylistEntry
    rw [h q hq]
    rfl
  · rfl

/-- Witness for C5: the default 360 and 720 profiles, whose bitrates 800k and
2800k parse to 800 and 2800. -/
theorem c5_master_manifest_format_witness :
    (∀ q ∈ [(⟨"640x360", "800k", "856k", "1200k", "360p.m3u8", "360", "360p_%03d.ts"⟩ : Quality),
            ⟨"1280x720", "2800k", "2996k", "4200k", "720p.m3u8", "720", "720p_%03d.ts"⟩],
        jsParseInt q.bitrate = some (if q.name == "360" then (800 : Int) else 2800))
    ∧ (masterPlaylistContent
          [(⟨"640x360", "800k", "856k", "1200k", "360p.m3u8", "360", "360p_%03d.ts"⟩ : Quality),
           ⟨"1280x720", "2800k", "2996k", "4200k", "720p.m3u8", "720", "720p_%03d.ts"⟩] =
        "#EXTM3U\n" ++ String.intercalate "\n"
          ([(⟨"640x360", "800k", "856k", "1200k", "360p.m3u8", "360", "360p_%03d.ts"⟩ : Quality),
            ⟨"1280x720", "2800k", "2996k", "4200k", "720p.m3u8", "720", "720p_%03d.ts"⟩].map (fun q =>
            "#EXT-X-STREAM-INF:BANDWIDTH="
              ++ toString ((if q.name == "360" then (800 : Int) else 2800) * 1000)
              ++ ",RESOLUTION=" ++ q.resolution ++ "\n" ++ q.file))
      ∧ jsParseInt "800k" = some 800) :=
  ⟨by decide,
    c5_master_manifest_format
      [⟨"640x360", "800k", "856k", "1200k", "360p.m3u8", "360", "360p_%03d.ts"⟩,
       ⟨"1280x720", "2800k", "2996k", "4200k", "720p.m3u8", "720", "720p_%03d.ts"⟩]
      (fun q => if q.name == "360" then (800 : Int) else 2800) (by decide)⟩

/-! ### Claim C10 -/

/-- C10 counterexample: the bitrate string of this profile starts with a
plus sign, not a digit, yet `parseInt` accepts the sign, so the manifest
renders bandwidth 800000 and does not contain the text BANDWIDTH=NaN,
contradicting the claim that every bitrate not beginning with a digit
renders as BANDWIDTH=NaN. -/
theorem c10_counterexample :
    beginsWithDigit "+800k" = false
    ∧ masterPlaylistContent
        [⟨"640x360", "+800k", "856k", "1200k", "360p.m3u8", "360", "360p_%03d.ts"⟩]
      = "#EXTM3U\n#EXT-X-STREAM-INF:BANDWIDTH=800000,RESOLUTION=640x360\n360p.m3u8"
    ∧ strOccurs "BANDWIDTH=NaN"
        (masterPlaylistContent
          [⟨"640x360", "+800k", "856k", "1200k", "360p.m3u8", "360", "360p_%03d.ts"⟩]) = false
    ∧ strOccurs "BANDWIDTH=800000"
        (masterPlaylistContent
          [⟨"640x360", "+800k", "856k", "1200k", "360p.m3u8", "360", "360p_%03d.ts"⟩]) = true :=
  ⟨rfl, rfl, rfl, rfl⟩

lemma jsSpace_eq_false_of_isDigit (c : Char) (h : c.isDigit = true) : jsSpace c = false := by
  have hne : ∀ d : Char, d.isDigit = false → c ≠ d := by
    intro d hd hcd
    subst hcd
    exact absurd h (by simp [hd])
  unfold jsSpace
  rw [beq_eq_false_iff_ne.mpr (hne ' ' (by decide)),
      beq_eq_false_iff_ne.mpr (hne '\t' (by decide)),
      beq_eq_false_iff_ne.mpr (hne '\n' (by decide)),
      beq_eq_false_iff_ne.mpr (hne '\r' (by decide)),
      beq_eq_false_iff_ne.mpr (hne '\x0b' (by decide)),
      beq_eq_false_iff_ne.mpr (hne '\x0c' (by decide))]
  rfl

lemma takeWhile_append_of_all (p : Char → Bool) (ds l : List Char)
    (h : ∀ c ∈ ds, p c = true) :
    (ds ++ l).takeWhile p = ds ++ l.takeWhile p := by
  induction ds with
  | nil => rfl
  | cons d ds ih =>
      simp [List.takeWhile_cons, h d (by simp), ih (fun c hc => h c (by simp [hc]))]

lemma takeWhile_isDigit_eq_nil (suffix : String) (hb : beginsWithDigit suffix = false) :
    suffix.toList.takeWhile Char.isDigit = [] := by
  cases hs : suffix.toList with
  | nil => rfl
  | cons c cs =>
      have hcd : c.isDigit = false := by
        unfold beginsWithDigit at hb
        rw [hs] at hb
        simpa using hb
      simp [List.takeWhile_cons, hcd]

lemma jsParseInt_digits_append (ds : List Char) (suffix : String)
    (h1 : ds ≠ []) (h2 : ∀ c ∈ ds, c.isDigit = true)
    (h3 : beginsWithDigit suffix = false) :
    jsParseInt (String.mk ds ++ suffix) = some ((digitsToNat ds : Int)) := by
  have htl : (String.mk ds ++ suffix).toList = ds ++ suffix.toList := by
    simp [String.toList]
  unfold jsParseInt
  rw [htl]
  obtain ⟨d, ds', rfl⟩ : ∃ d ds', ds = d :: ds' := by
    cases ds with
    | nil => exact absurd rfl h1
    | cons d ds' => exact ⟨d, ds', rfl⟩
  have hd : d.isDigit = true := h2 d (by simp)
  rw [List.cons_append, List.dropWhile_cons, jsSpace_eq_false_of_isDigit d hd]
  simp only [Bool.false_eq_true, if_false]
  have hd1 : d ≠ '-' := by
    rintro rfl
    exact absurd hd (by decide)
  have hd2 : d ≠ '+' := by
    rintro rfl
    exact absurd hd (by decide)
  unfold jsParseIntList
  rw [if_neg (by simp [hd1]), if_neg (by simp [hd2])]
  simp only [digitsPart]
  rw [← List.cons_append, takeWhile_append_of_all Char.isDigit (d :: ds') suffix.toList h2,
      takeWhile_isDigit_eq_nil suffix h3, List.append_nil]
  simp

/-- C10 (amended): the master-manifest bandwidth is `parseInt` of the bitrate
string times 1000, where `parseInt` skips leading whitespace and accepts an
optional sign before the leading decimal digits, which alone determine the
value (a non-digit suffix such as `k` is ignored); for every profile whose
bitrate has no leading digit run after that prefix handling (`parseInt`
yields NaN), the manifest is still rendered and carries the literal text
BANDWIDTH=NaN instead of any failure. -/
theorem c10_amended_bandwidth
    (q : Quality) (ds : List Char) (suffix : String)
    (hq : jsParseInt q.bitrate = none)
    (h1 : ds ≠ []) (h2 : ∀ c ∈ ds, c.isDigit = true)
    (h3 : beginsWithDigit suffix = false) :
    masterPlaylistContent [q] =
      "#EXTM3U\n" ++ ("#EXT-X-STREAM-INF:BANDWIDTH=NaN,RESOLUTION=" ++ q.resolution ++ "\n" ++ q.file)
    ∧ jsParseInt (String.mk ds ++ suffix) = some ((digitsToNat ds : Int)) := by
  constructor
  · unfold masterPlaylistContent
    simp only [List.map_cons, List.map_nil]
    unfold masterPlaylistEntry
    rw [hq]
    rfl
  · exact jsParseInt_digits_append ds suffix h1 h2 h3

/-- Profile whose bitrate string has no digits at all. -/
def qualityAbcBitrate : Quality :=
  ⟨"640x360", "abc", "856k", "1200k", "360p.m3u8", "360", "360p_%03d.ts"⟩

/-- Witness for C10 (amended): bitrate `abc` renders BANDWIDTH=NaN, and the
digit run 800 followed by the suffix `k` parses to 800. -/
theorem c10_amended_bandwidth_witness :
    jsParseInt qualityAbcBitrate.bitrate = none
    ∧ (['8', '0', '0'] ≠ ([] : List Char))
    ∧ (∀ c ∈ ['8', '0', '0'], c.isDigit = true)
    ∧ beginsWithDigit "k" = false
    ∧ (masterPlaylistContent [qualityAbcBitrate] =
        "#EXTM3U\n" ++ ("#EXT-X-STREAM-INF:BANDWIDTH=NaN,RESOLUTION="
          ++ qualityAbcBitrate.resolution ++ "\n" ++ qualityAbcBitrate.file)
      ∧ jsParseInt (String.mk (['8', '0', '0']) ++ "k") = some ((digitsToNat ['8', '0', '0'] : Int))) :=
  ⟨rfl, by decide, by decide, rfl,
    c10_amended_bandwidth qualityAbcBitrate ['8', '0', '0'] "k" rfl (by decide) (by decide) rfl⟩
